import Mathlib

/-!
Shallow embedding of the wallet business logic of the `AI-Bitcoin-wallet`
repository (Python), covering:

* `app/wallet_logic/wallet.py` — mnemonic generation and key derivation,
* `app/wallet_logic/transactions.py` — mocked transaction creation/broadcast,
* `app/wallet_logic/settings.py` and `activity.py` — per-wallet JSON stores,
* `app/main.py` — the inheritance status-check / prepare / broadcast handlers.

Python machine-level effects are made explicit: the file stores become
functions from file paths to stored records, the wall clock becomes an
integer parameter (seconds), raised exceptions become `Except` errors, and
the external cryptographic libraries (`bip_utils`, `python-bitcoinlib`)
become an explicit environment of abstract pure functions.
-/

/-- A UTXO dictionary as used by `transactions.py` (`txid`, `vout`,
`value` in integer satoshis). -/
structure UTXO where
  txid : String
  vout : Nat
  value : Nat
deriving DecidableEq

/-- Errors raised by the wallet logic.  `bipUtilsNotAvailable` models the
`BipUtilsNotAvailableError` of `wallet.py`; `valueError` models the
`ValueError("Failed to create wallet from mnemonic: ...")` re-raised by
`create_wallet_from_mnemonic` (the code's realisation of the spec's
`InvalidMnemonic`); `insufficientFunds` is the error kind named by the spec
for coin selection — the mocked code never produces it. -/
inductive WalletError where
  | bipUtilsNotAvailable
  | valueError
  | insufficientFunds
deriving DecidableEq

/-- The dictionary returned by `create_wallet_from_mnemonic`. -/
structure KeyMaterial where
  mnemonic : String
  private_key_wif : String
  public_key_hex : String
  address : String
deriving DecidableEq

/-- The external cryptographic libraries used by `wallet.py`, as an
environment of abstract pure functions.  `gen_mnemonic_12` is the result of
`Bip39MnemonicGenerator().FromWordsNumber(WORDS_NUM_12)` (`none` models the
call raising).  `seed_of_mnemonic` is `Bip39SeedGenerator(m).Generate()`
(`none` models the library rejecting the mnemonic: bad word count, word not
in the wordlist, bad checksum, empty input).  The remaining fields model the
BIP44 derivation and the `python-bitcoinlib` WIF / public-key / address
steps, each of which may raise (`none`). -/
structure CryptoEnv where
  bip_utils_available : Bool
  gen_mnemonic_12 : Option String
  seed_of_mnemonic : String → Option (List Nat)
  privkey_of_seed : List Nat → Option (List Nat)
  wif_of_privkey : List Nat → Option String
  pubkey_of_privkey : List Nat → Option (List Nat)
  address_of_pubkey : List Nat → Option String
  hex_of_bytes : List Nat → String

/-- The fixed fallback mnemonic hard-coded in `wallet.py`. -/
def fixed_test_mnemonic : String :=
  "abandon abandon abandon abandon abandon abandon abandon abandon abandon abandon abandon about"

/-- `wallet.py` `generate_mnemonic`: with `bip_utils` available it returns the
library-generated 12-word mnemonic, falling back to the fixed test mnemonic
if the generator raises; with `bip_utils` unavailable it returns the fixed
test mnemonic.  It never fails. -/
def generate_mnemonic (env : CryptoEnv) : String :=
  if env.bip_utils_available then
    match env.gen_mnemonic_12 with
    | some m => m
    | none => fixed_test_mnemonic
  else fixed_test_mnemonic

/-- `wallet.py` `create_wallet_from_mnemonic`: raises
`BipUtilsNotAvailableError` when `bip_utils` is unavailable; otherwise runs
seed generation, BIP44 derivation and the `python-bitcoinlib` steps, and
re-raises any exception of those steps as a `ValueError` (the `except` block
at the end of the function).  On success it returns the dictionary with the
mnemonic, WIF, compressed public key hex and P2PKH address. -/
def create_wallet_from_mnemonic (env : CryptoEnv) (mnemonic_phrase : String) :
    Except WalletError KeyMaterial :=
  if env.bip_utils_available = false then
    Except.error WalletError.bipUtilsNotAvailable
  else
    match env.seed_of_mnemonic mnemonic_phrase with
    | none => Except.error WalletError.valueError
    | some seed_bytes =>
      match env.privkey_of_seed seed_bytes with
      | none => Except.error WalletError.valueError
      | some private_key_bytes =>
        match env.wif_of_privkey private_key_bytes with
        | none => Except.error WalletError.valueError
        | some private_key_wif =>
          match env.pubkey_of_privkey private_key_bytes with
          | none => Except.error WalletError.valueError
          | some public_key =>
            match env.address_of_pubkey public_key with
            | none => Except.error WalletError.valueError
            | some address =>
              Except.ok ⟨mnemonic_phrase, private_key_wif, env.hex_of_bytes public_key, address⟩

/-- `transactions.py` `create_transaction` (MOCKED in the source): logs its
arguments and unconditionally returns the mock transaction id
`f"mock_tx_id_for_{recipient_address}_amount{amount_btc}_fee{fee_btc}"`.
It performs no coin selection and never raises; the `Except` result type
models Python's exception channel, which this function never uses.  The
`Decimal` amount and fee arguments are represented by their decimal string
rendering, the only observation the function makes of them. -/
def create_transaction (sender_address private_key_wif recipient_address : String)
    (amount_btc : String) (utxos : List UTXO) (fee_btc : String) :
    Except WalletError String :=
  Except.ok ("mock_tx_id_for_" ++ recipient_address ++ "_amount" ++ amount_btc
    ++ "_fee" ++ fee_btc)

/-- `transactions.py` `broadcast_transaction` (MOCKED in the source):
unconditionally returns `True`. -/
def broadcast_transaction (raw_signed_tx_hex : String) : Bool := true

/-- A concrete crypto environment in which every library step succeeds,
used to exercise the derivation pipeline on a concrete input. -/
def env_ok : CryptoEnv :=
  ⟨true, some fixed_test_mnemonic,
   fun m => if m = "" then none else some [0],
   fun _ => some [1],
   fun _ => some "L1exampleWifKey",
   fun _ => some [2],
   fun _ => some "1ExampleP2PKHAddr",
   fun _ => "02abcd"⟩

/-- A concrete crypto environment in which `bip_utils` failed to import
(`bip_utils_available = False` in `wallet.py`). -/
def env_no_bip : CryptoEnv :=
  ⟨false, none, fun _ => none, fun _ => none, fun _ => none, fun _ => none,
   fun _ => none, fun _ => ""⟩

/-- A concrete crypto environment in which `bip_utils` is importable but
rejects every mnemonic (models `Bip39SeedGenerator` raising on invalid
input). -/
def env_reject : CryptoEnv :=
  ⟨true, none, fun _ => none, fun _ => some [1], fun _ => some "L1w",
   fun _ => some [2], fun _ => some "1Addr", fun _ => ""⟩

/-- The `KeyMaterial` produced by `env_ok` on the fixed test mnemonic. -/
def km_ok : KeyMaterial :=
  ⟨fixed_test_mnemonic, "L1exampleWifKey", "02abcd", "1ExampleP2PKHAddr"⟩

/-- C1 (counterexample): with no UTXOs at all (sum of values `S = 0`) and
`target + fee = 0.0101 BTC > 0`, `create_transaction` does not fail with
`InsufficientFunds` — it returns a mock transaction id. -/
theorem create_transaction_ignores_insufficient_funds :
    ([] : List UTXO).map UTXO.value = [] ∧
    create_transaction "1SenderAddr" "L1wifKey" "1AnotherAddressToReceiveBitcoin"
        "0.01" [] "0.0001" =
      Except.ok
        "mock_tx_id_for_1AnotherAddressToReceiveBitcoin_amount0.01_fee0.0001" :=
  ⟨rfl, rfl⟩

/-- C1 (amended): `create_transaction` is a mock that, for every input —
regardless of the UTXO list, the target amount or the fee — returns the mock
transaction id built from the recipient, amount and fee; it performs no coin
selection, computes no change, and never fails with `InsufficientFunds`. -/
theorem create_transaction_mock_unconditional (sender wif recipient amount : String)
    (utxos : List UTXO) (fee : String) :
    create_transaction sender wif recipient amount utxos fee =
      Except.ok ("mock_tx_id_for_" ++ recipient ++ "_amount" ++ amount
        ++ "_fee" ++ fee) := rfl

/-- C4: key derivation is a deterministic pure function of the mnemonic —
two calls of `create_wallet_from_mnemonic` in the same crypto environment
that both succeed return identical `KeyMaterial` (hence the same WIF, public
key hex and address). -/
theorem create_wallet_deterministic (env : CryptoEnv) (m : String)
    (km1 km2 : KeyMaterial)
    (h1 : create_wallet_from_mnemonic env m = Except.ok km1)
    (h2 : create_wallet_from_mnemonic env m = Except.ok km2) :
    km1 = km2 := by
  rw [h1] at h2
  exact (Except.ok.injEq km1 km2).mp h2

/-- C4 witness: the determinism theorem applied at the concrete environment
`env_ok` and the fixed test mnemonic, both calls evaluating to `km_ok`. -/
theorem create_wallet_deterministic_witness : km_ok = km_ok :=
  create_wallet_deterministic env_ok fixed_test_mnemonic km_ok km_ok rfl rfl

/-- C6: whenever the BIP39 library rejects a mnemonic (invalid word count,
wordlist membership or checksum — including the empty string),
`create_wallet_from_mnemonic` fails with the `ValueError` that realises the
spec's `InvalidMnemonic`, returning no `KeyMaterial`. -/
theorem invalid_mnemonic_derivation_fails (env : CryptoEnv) (m : String)
    (ha : env.bip_utils_available = true)
    (hm : env.seed_of_mnemonic m = none) :
    create_wallet_from_mnemonic env m = Except.error WalletError.valueError := by
  unfold create_wallet_from_mnemonic
  rw [ha, hm]
  rfl

/-- C6 witness: in the concrete environment `env_reject` the empty mnemonic
is rejected and derivation fails with the `ValueError`. -/
theorem invalid_mnemonic_derivation_fails_witness :
    create_wallet_from_mnemonic env_reject "" = Except.error WalletError.valueError :=
  invalid_mnemonic_derivation_fails env_reject "" rfl rfl

/-- C8 (counterexample): when `bip_utils` cannot be loaded,
`generate_mnemonic` does not fail — it returns the fixed stub mnemonic
`"abandon ... about"`, fabricated data in place of a dependency error. -/
theorem generate_mnemonic_fixed_stub_counterexample :
    generate_mnemonic env_no_bip =
      "abandon abandon abandon abandon abandon abandon abandon abandon abandon abandon abandon about" :=
  rfl

/-- C8 (amended): when the cryptographic library cannot be loaded,
`create_wallet_from_mnemonic` does fail fast with
`BipUtilsNotAvailableError`, but `generate_mnemonic` does not fail: it
substitutes the fixed test mnemonic. -/
theorem missing_bip_utils_behavior (env : CryptoEnv) (m : String)
    (h : env.bip_utils_available = false) :
    create_wallet_from_mnemonic env m = Except.error WalletError.bipUtilsNotAvailable ∧
    generate_mnemonic env = fixed_test_mnemonic := by
  constructor
  · unfold create_wallet_from_mnemonic
    rw [h]
    rfl
  · unfold generate_mnemonic
    rw [h]
    rfl

/-- C8 witness: the amended behaviour at the concrete environment
`env_no_bip`. -/
theorem missing_bip_utils_behavior_witness :
    create_wallet_from_mnemonic env_no_bip "any words" =
        Except.error WalletError.bipUtilsNotAvailable ∧
    generate_mnemonic env_no_bip = fixed_test_mnemonic :=
  missing_bip_utils_behavior env_no_bip "any words" rfl

/-- `settings.py` `InheritanceSettings` dictionary: `enabled`,
`beneficiary_address`, `inactivity_period` (days), `transfer_amount`
(decimal BTC string). -/
structure InheritanceSettings where
  enabled : Bool
  beneficiary_address : String
  inactivity_period : Int
  transfer_amount : String
deriving DecidableEq

/-- The default settings returned by `load_inheritance_settings` when no
settings file exists for the wallet. -/
def default_inheritance_settings : InheritanceSettings :=
  ⟨false, "", 90, "0.0"⟩

/-- `settings.py` / `activity.py` identifier sanitization:
`"".join(c if c.isalnum() else "_" for c in wallet_identifier)`
(modelled over ASCII alphanumerics). -/
def sanitize_identifier (wallet_identifier : String) : String :=
  String.mk (wallet_identifier.toList.map (fun c => if c.isAlphanum then c else '_'))

/-- `settings.py` `_get_settings_filepath`. -/
def get_settings_filepath (wallet_identifier : String) : String :=
  "wallet_data/settings/inheritance_settings_" ++ sanitize_identifier wallet_identifier
    ++ ".json"

/-- `activity.py` `_get_activity_filepath`. -/
def get_activity_filepath (wallet_identifier : String) : String :=
  "wallet_data/activity/activity_log_" ++ sanitize_identifier wallet_identifier
    ++ ".json"

/-- The settings directory contents: a map from file path to the settings
record stored in that file (`none` = no such file). -/
abbrev SettingsStore : Type := String → Option InheritanceSettings

/-- The activity directory contents: a map from file path to the
`last_activity_timestamp` stored in that file, as UTC seconds
(`none` = no file, or a timestamp that fails ISO-8601 validation, which
`get_last_activity_timestamp` treats as missing). -/
abbrev ActivityStore : Type := String → Option Int

/-- `settings.py` `save_inheritance_settings`: refuses an empty wallet
identifier (returns `False`), otherwise writes the settings JSON to the
sanitized per-wallet path and returns `True`. -/
def save_inheritance_settings (store : SettingsStore) (wallet_identifier : String)
    (settings : InheritanceSettings) : SettingsStore × Bool :=
  if wallet_identifier = "" then (store, false)
  else
    ((fun k => if k = get_settings_filepath wallet_identifier then some settings
       else store k), true)

/-- `settings.py` `load_inheritance_settings`: `None` for an empty wallet
identifier; the stored record when the per-wallet file exists; the default
settings otherwise. -/
def load_inheritance_settings (store : SettingsStore) (wallet_identifier : String) :
    Option InheritanceSettings :=
  if wallet_identifier = "" then none
  else
    match store (get_settings_filepath wallet_identifier) with
    | some settings => some settings
    | none => some default_inheritance_settings

/-- `activity.py` `update_last_activity_timestamp`: refuses an empty wallet
identifier (returns `False`), otherwise writes the current UTC time to the
sanitized per-wallet activity file and returns `True`. -/
def update_last_activity_timestamp (store : ActivityStore) (wallet_identifier : String)
    (now : Int) : ActivityStore × Bool :=
  if wallet_identifier = "" then (store, false)
  else
    ((fun k => if k = get_activity_filepath wallet_identifier then some now
       else store k), true)

/-- `activity.py` `get_last_activity_timestamp`: `None` for an empty wallet
identifier or a missing/invalid record, the stored timestamp otherwise. -/
def get_last_activity_timestamp (store : ActivityStore) (wallet_identifier : String) :
    Option Int :=
  if wallet_identifier = "" then none
  else store (get_activity_filepath wallet_identifier)

/-- Outcome of `handle_check_inheritance_status` (`main.py`): the wallet's
activity record after the handler ran, whether
`update_last_activity_timestamp` was invoked, and which status message
branch was taken.  `notEnabled` is the "Inheritance feature is not enabled"
message, `due` the "Ready to prepare inheritance transaction" message
(prepare button shown), `notDue` the "Wallet active" message. -/
inductive CheckStatus where
  | notEnabled
  | due
  | notDue
deriving DecidableEq

/-- Result record of the status-check handler. -/
structure CheckOutcome where
  last_activity : Option Int
  touch_called : Bool
  status : CheckStatus
deriving DecidableEq

/-- `main.py` `handle_check_inheritance_status`, for a wallet whose
identifier is present.  Sequencing follows the source: the handler FIRST
calls `update_last_activity_timestamp` ("Checking status is considered an
activity"; `touch_ok` is that call's return value — `False` models an I/O
failure leaving the record unchanged), THEN loads the settings, THEN reads
`get_last_activity_timestamp` back from the same store.  A missing record
gives `days_inactive = float('inf')`; otherwise
`days_inactive = (now - last_activity).days` (floor division by 86400
seconds).  The wallet is reported due exactly when
`days_inactive >= inactivity_period`. -/
def handle_check_inheritance_status (touch_ok : Bool)
    (settings : Option InheritanceSettings) (last_activity : Option Int)
    (now : Int) : CheckOutcome :=
  let last1 := if touch_ok then some now else last_activity
  match settings with
  | none => ⟨last1, true, CheckStatus.notEnabled⟩
  | some s =>
    if s.enabled = false then ⟨last1, true, CheckStatus.notEnabled⟩
    else
      match last1 with
      | none => ⟨last1, true, CheckStatus.due⟩
      | some t =>
        if Int.fdiv (now - t) 86400 ≥ s.inactivity_period then
          ⟨last1, true, CheckStatus.due⟩
        else ⟨last1, true, CheckStatus.notDue⟩

/-- The `prepared_inheritance_tx_details` dictionary stored by
`handle_prepare_inheritance_transaction` (`main.py`). -/
structure PreparedTx where
  recipient : String
  amount_btc : String
  fee_btc : String
  mock_tx_id_or_hex : String
deriving DecidableEq

/-- Outcome branches of `handle_broadcast_inheritance_tx` (`main.py`):
`noPrepared` = "Broadcast failed: No transaction was prepared.",
`missingData` = "Broadcast failed: Prepared transaction data is missing or
invalid.", `success` = "Inheritance transaction broadcasted",
`failedBackend` = "Inheritance transaction broadcast failed (mock
backend)." -/
inductive BroadcastStatus where
  | noPrepared
  | missingData
  | success
  | failedBackend
deriving DecidableEq

/-- Result record of the broadcast handler. -/
structure BroadcastOutcome where
  prepared : Option PreparedTx
  last_activity : Option Int
  status : BroadcastStatus
deriving DecidableEq

/-- `main.py` `handle_broadcast_inheritance_tx`: with no prepared
transaction it fails with "No transaction was prepared"; with a prepared
record whose `mock_tx_id_or_hex` is falsy (empty) it fails early without
clearing; otherwise it calls the broadcaster (`broadcast` — bound to
`broadcast_transaction` in the repo, a parameter here so the simulated
transport failure of the spec's scenario D is expressible), touches the
activity record on success (`touch_ok` is that call's result), and in both
the success and the failure branch finally sets
`prepared_inheritance_tx_details = None`. -/
def handle_broadcast_inheritance_tx (broadcast : String → Bool) (touch_ok : Bool)
    (prepared : Option PreparedTx) (last_activity : Option Int) (now : Int) :
    BroadcastOutcome :=
  match prepared with
  | none => ⟨none, last_activity, BroadcastStatus.noPrepared⟩
  | some p =>
    if p.mock_tx_id_or_hex = "" then
      ⟨some p, last_activity, BroadcastStatus.missingData⟩
    else if broadcast p.mock_tx_id_or_hex then
      ⟨none, if touch_ok then some now else last_activity, BroadcastStatus.success⟩
    else ⟨none, last_activity, BroadcastStatus.failedBackend⟩

/-- A prepared-transaction record of the shape stored by
`handle_prepare_inheritance_transaction` (its `mock_tx_id_or_hex` is the
f-string `"mock_inheritance_tx_for_..."`, never empty). -/
def prepared_tx_example : PreparedTx :=
  ⟨"1BeneficiaryAddr", "0.05", "0.0001",
   "mock_inheritance_tx_for_1BeneficiaryAddr_0.05"⟩

/-- C2 (code evaluated at the failing input): wallet with inheritance
enabled, period 90 days, last activity 91 whole days before the check, the
activity store writable.  Because `handle_check_inheritance_status` touches
the activity record FIRST and then reads the timestamp it just wrote, it
computes `days_inactive = 0` and reports the wallet NOT due — the claim (and
spec scenario C) require `DUE` at `D = 91 >= P = 90`. -/
theorem check_inheritance_status_91_days_not_due :
    handle_check_inheritance_status true (some ⟨true, "1BeneficiaryAddr", 90, "0.05"⟩)
        (some 0) (91 * 86400) =
      ⟨some (91 * 86400), true, CheckStatus.notDue⟩ := rfl

/-- C5: every invocation of the inheritance status check (for a wallet whose
identifier is present) calls `update_last_activity_timestamp` — regardless
of whether the write succeeds, of the settings, and of the inactivity
outcome; when the write succeeds the wallet's activity record afterwards
holds the time of the check. -/
theorem check_inheritance_status_touches_activity (touch_ok : Bool)
    (settings : Option InheritanceSettings) (last_activity : Option Int)
    (now : Int) :
    (handle_check_inheritance_status touch_ok settings last_activity now).touch_called
        = true ∧
    (handle_check_inheritance_status true settings last_activity now).last_activity
        = some now := by
  constructor
  · unfold handle_check_inheritance_status
    rcases settings with _ | s
    · cases touch_ok <;> rfl
    · obtain ⟨e, ba, ip, ta⟩ := s
      cases e <;> cases touch_ok <;> rcases last_activity with _ | t <;>
        (try dsimp only) <;> (repeat' split) <;> (try dsimp only) <;>
        (repeat' split) <;> first | rfl | contradiction
  · unfold handle_check_inheritance_status
    rcases settings with _ | s
    · rfl
    · obtain ⟨e, ba, ip, ta⟩ := s
      cases e <;> (try dsimp only) <;> (repeat' split) <;> (try dsimp only) <;>
        (repeat' split) <;> first | rfl | contradiction

/-- C3: after a broadcast attempt on a prepared inheritance transaction
(one whose mock tx id is non-empty, as `handle_prepare_inheritance_transaction`
always produces), the stored prepared transaction is cleared whatever the
broadcaster returned, and a second broadcast call without a new prepare
takes the "Broadcast failed: No transaction was prepared." branch. -/
theorem broadcast_attempt_clears_prepared_tx
    (broadcast broadcast2 : String → Bool) (touch_ok touch_ok2 : Bool)
    (p : PreparedTx) (last_activity last2 : Option Int) (now now2 : Int)
    (h : p.mock_tx_id_or_hex ≠ "") :
    (handle_broadcast_inheritance_tx broadcast touch_ok (some p) last_activity
        now).prepared = none ∧
    (handle_broadcast_inheritance_tx broadcast2 touch_ok2
        (handle_broadcast_inheritance_tx broadcast touch_ok (some p) last_activity
          now).prepared last2 now2).status = BroadcastStatus.noPrepared := by
  have hp : (handle_broadcast_inheritance_tx broadcast touch_ok (some p)
      last_activity now).prepared = none := by
    cases hb : broadcast p.mock_tx_id_or_hex <;>
      simp [handle_broadcast_inheritance_tx, h, hb]
  refine ⟨hp, ?_⟩
  rw [hp]
  rfl

/-- C3 witness: a concrete prepared transaction together with a broadcaster
that reports failure (spec scenario D): the record is cleared and the next
broadcast call fails with "No transaction was prepared". -/
theorem broadcast_attempt_clears_prepared_tx_witness :
    (handle_broadcast_inheritance_tx (fun _ => false) true (some prepared_tx_example)
        (some 0) 100).prepared = none ∧
    (handle_broadcast_inheritance_tx (fun _ => false) true
        (handle_broadcast_inheritance_tx (fun _ => false) true
          (some prepared_tx_example) (some 0) 100).prepared
        (some 0) 100).status = BroadcastStatus.noPrepared :=
  broadcast_attempt_clears_prepared_tx (fun _ => false) (fun _ => false) true true
    prepared_tx_example (some 0) (some 0) 100 100 (by decide)

/-- C9: settings and activity records are keyed by the sanitized wallet
identifier (every non-alphanumeric character replaced by '_'), so for two
distinct identifiers with equal sanitized forms, a settings save or an
activity update under one is read back by a load under the other. -/
theorem sanitized_identifier_collision
    (sstore : SettingsStore) (astore : ActivityStore) (id1 id2 : String)
    (s : InheritanceSettings) (now : Int)
    (h1 : id1 ≠ "") (h2 : id2 ≠ "") (hne : id1 ≠ id2)
    (hs : sanitize_identifier id1 = sanitize_identifier id2) :
    load_inheritance_settings (save_inheritance_settings sstore id1 s).1 id2 = some s ∧
    get_last_activity_timestamp (update_last_activity_timestamp astore id1 now).1 id2
      = some now := by
  have hsp : get_settings_filepath id2 = get_settings_filepath id1 := by
    unfold get_settings_filepath
    rw [hs]
  have hap : get_activity_filepath id2 = get_activity_filepath id1 := by
    unfold get_activity_filepath
    rw [hs]
  constructor
  · unfold load_inheritance_settings save_inheritance_settings
    rw [if_neg h1, if_neg h2]
    dsimp only
    rw [hsp, if_pos rfl]
  · unfold get_last_activity_timestamp update_last_activity_timestamp
    rw [if_neg h1, if_neg h2]
    dsimp only
    rw [hap, if_pos rfl]

/-- C9 witness: the distinct identifiers "a.b" and "a_b" sanitize to the
same form, and a save/update under "a.b" is read back under "a_b". -/
theorem sanitized_identifier_collision_witness :
    load_inheritance_settings
        (save_inheritance_settings (fun _ => none) "a.b"
          default_inheritance_settings).1 "a_b" = some default_inheritance_settings ∧
    get_last_activity_timestamp
        (update_last_activity_timestamp (fun _ => none) "a.b" 5).1 "a_b" = some 5 :=
  sanitized_identifier_collision (fun _ => none) (fun _ => none) "a.b" "a_b"
    default_inheritance_settings 5 (by decide) (by decide) (by decide) (by decide)

/-- C10: `broadcast_transaction` returns `True` for every input string, so
when the broadcast handler is run with the repository's own broadcaster the
"broadcast failed (mock backend)" branch is unreachable: the outcome is one
of the two guard failures or success. -/
theorem broadcast_transaction_always_true (raw : String) (touch_ok : Bool)
    (prepared : Option PreparedTx) (last_activity : Option Int) (now : Int) :
    broadcast_transaction raw = true ∧
    ((handle_broadcast_inheritance_tx broadcast_transaction touch_ok prepared
          last_activity now).status = BroadcastStatus.noPrepared ∨
     (handle_broadcast_inheritance_tx broadcast_transaction touch_ok prepared
          last_activity now).status = BroadcastStatus.missingData ∨
     (handle_broadcast_inheritance_tx broadcast_transaction touch_ok prepared
          last_activity now).status = BroadcastStatus.success) := by
  refine ⟨rfl, ?_⟩
  rcases prepared with _ | p
  · exact Or.inl rfl
  · by_cases hp : p.mock_tx_id_or_hex = ""
    · refine Or.inr (Or.inl ?_)
      simp [handle_broadcast_inheritance_tx, hp]
    · refine Or.inr (Or.inr ?_)
      simp [handle_broadcast_inheritance_tx, hp, broadcast_transaction]

/-- Modelled from the spec: decimal digit character (`'0'`..`'9'`) of a
digit value.  The repository contains no satoshi/BTC-string conversion code
(its core is mocked); §6 of the spec requires amounts crossing the boundary
to be decimal BTC strings with up to 8 fractional digits, converted by exact
integer arithmetic. -/
def digitChar (d : Nat) : Char :=
  match d with
  | 0 => '0'
  | 1 => '1'
  | 2 => '2'
  | 3 => '3'
  | 4 => '4'
  | 5 => '5'
  | 6 => '6'
  | 7 => '7'
  | 8 => '8'
  | _ => '9'

/-- Fuel-driven decimal printing of a natural number (most significant digit
first); with fuel above the number it prints every digit. -/
def natDigitsGo (fuel n : Nat) : List Char :=
  match fuel with
  | 0 => []
  | fuel + 1 =>
    if n < 10 then [digitChar n]
    else natDigitsGo fuel (n / 10) ++ [digitChar (n % 10)]

/-- Decimal digit string of a natural number (as Python's `str`). -/
def natDigits (n : Nat) : List Char := natDigitsGo (n + 1) n

/-- Numeric value of a decimal digit character, `none` for a non-digit. -/
def charVal (c : Char) : Option Nat :=
  if 48 ≤ c.toNat ∧ c.toNat ≤ 57 then some (c.toNat - 48) else none

/-- Left fold of decimal digits onto an accumulator; `none` on any
non-digit character. -/
def parseNatGo (l : List Char) (acc : Nat) : Option Nat :=
  match l with
  | [] => some acc
  | c :: cs =>
    match charVal c with
    | some d => parseNatGo cs (acc * 10 + d)
    | none => none

/-- Exact decimal parse of a non-empty digit string. -/
def parseNat (l : List Char) : Option Nat :=
  match l with
  | [] => none
  | _ :: _ => parseNatGo l 0

/-- Modelled from the spec: render an integer satoshi amount as a decimal
BTC string with exactly 8 fractional digits (integer part, '.', fractional
part of `amount % 10^8` left-padded with zeros), using only integer
arithmetic — no binary floating point. -/
def sats_to_btc_chars (a : Nat) : List Char :=
  natDigits (a / 100000000) ++
    '.' :: (List.replicate (8 - (natDigits (a % 100000000)).length) '0' ++
      natDigits (a % 100000000))

/-- Modelled from the spec: parse a decimal BTC string (optional fractional
part of at most 8 digits) back to integer satoshis, using only integer
arithmetic — no binary floating point.  Fails on malformed input. -/
def btc_chars_to_sats (l : List Char) : Option Nat :=
  let int_part := l.takeWhile (fun c => c != '.')
  match l.dropWhile (fun c => c != '.') with
  | [] =>
    match parseNat int_part with
    | some i => some (i * 100000000)
    | none => none
  | _ :: frac_part =>
    match parseNat int_part, parseNat frac_part with
    | some i, some f =>
      if frac_part.length ≤ 8 then
        some (i * 100000000 + f * 10 ^ (8 - frac_part.length))
      else none
    | _, _ => none

/-- Modelled from the spec: satoshi amount to decimal BTC string. -/
def sats_to_btc_string (a : Nat) : String := String.mk (sats_to_btc_chars a)

/-- Modelled from the spec: decimal BTC string to satoshi amount. -/
def btc_string_to_sats (s : String) : Option Nat := btc_chars_to_sats s.data

/-- Digit characters are never the decimal point. -/
theorem digitChar_ne_dot (d : Nat) : (digitChar d != '.') = true := by
  rcases d with _|_|_|_|_|_|_|_|_|_|d <;> rfl

/-- `charVal` inverts `digitChar` on digit values. -/
theorem charVal_digitChar (d : Nat) (h : d < 10) : charVal (digitChar d) = some d := by
  interval_cases d <;> rfl

/-- With positive fuel the digit printer returns a non-empty list. -/
theorem natDigitsGo_ne_nil (fuel n : Nat) (h : 0 < fuel) : natDigitsGo fuel n ≠ [] := by
  intro hc
  have hl := congrArg List.length hc
  cases fuel with
  | zero => omega
  | succ fuel => by_cases h10 : n < 10 <;> simp [natDigitsGo, h10] at hl

/-- Every character printed by the digit printer is a digit, never '.'. -/
theorem natDigitsGo_mem_ne_dot :
    ∀ fuel n c, c ∈ natDigitsGo fuel n → (c != '.') = true := by
  intro fuel
  induction fuel with
  | zero => intro n c hc; simp [natDigitsGo] at hc
  | succ fuel ih =>
    intro n c hc
    by_cases h10 : n < 10
    · simp [natDigitsGo, h10] at hc
      subst hc
      exact digitChar_ne_dot n
    · simp [natDigitsGo, h10] at hc
      rcases hc with hc | hc
      · exact ih _ _ hc
      · subst hc
        exact digitChar_ne_dot _

/-- `takeWhile`/`dropWhile` split a list at the first failing element. -/
theorem takeWhile_middle (p : Char → Bool) (l1 l2 : List Char) (x : Char)
    (h : ∀ c ∈ l1, p c = true) (hx : p x = false) :
    (l1 ++ x :: l2).takeWhile p = l1 ∧ (l1 ++ x :: l2).dropWhile p = x :: l2 := by
  induction l1 with
  | nil =>
    constructor
    · simp [List.takeWhile, hx]
    · simp [List.dropWhile, hx]
  | cons c cs ih =>
    have hc : p c = true := h c (List.mem_cons_self c cs)
    obtain ⟨iht, ihd⟩ := ih (fun a ha => h a (List.mem_cons_of_mem c ha))
    constructor
    · simp [List.takeWhile, hc, iht]
    · simp [List.dropWhile, hc, ihd]

/-- The digit fold over an appended list runs left to right. -/
theorem parseNatGo_append (l1 l2 : List Char) :
    ∀ acc, parseNatGo (l1 ++ l2) acc =
      match parseNatGo l1 acc with
      | some a => parseNatGo l2 a
      | none => none := by
  induction l1 with
  | nil => intro acc; rfl
  | cons c cs ih =>
    intro acc
    cases hc : charVal c with
    | none => simp [parseNatGo, hc]
    | some d =>
      simp only [List.cons_append, parseNatGo, hc]
      exact ih _

/-- Folding the printed digits of `n` onto `acc` yields
`acc * 10 ^ (number of digits) + n`. -/
theorem parseNatGo_natDigitsGo :
    ∀ fuel n acc, n < fuel →
      parseNatGo (natDigitsGo fuel n) acc =
        some (acc * 10 ^ (natDigitsGo fuel n).length + n) := by
  intro fuel
  induction fuel with
  | zero => intro n acc h; omega
  | succ fuel ih =>
    intro n acc h
    by_cases h10 : n < 10
    · simp [natDigitsGo, h10, parseNatGo, charVal_digitChar n h10]
    · have hdiv : n / 10 < fuel := by
        have := Nat.div_lt_self (show 0 < n by omega) (show 1 < 10 by omega)
        omega
      have hm : n % 10 < 10 := Nat.mod_lt _ (by omega)
      simp only [natDigitsGo, if_neg h10]
      rw [parseNatGo_append, ih (n / 10) acc hdiv]
      simp only [parseNatGo, charVal_digitChar _ hm, List.length_append,
        List.length_singleton]
      congr 1
      calc (acc * 10 ^ (natDigitsGo fuel (n / 10)).length + n / 10) * 10 + n % 10
          = acc * (10 ^ (natDigitsGo fuel (n / 10)).length * 10)
            + (10 * (n / 10) + n % 10) := by ring
        _ = acc * 10 ^ ((natDigitsGo fuel (n / 10)).length + 1) + n := by
            rw [Nat.div_add_mod, pow_succ]

/-- A number below `10 ^ k` prints in at most `k` digits. -/
theorem natDigitsGo_length_le :
    ∀ fuel n k, n < fuel → n < 10 ^ k → 1 ≤ k →
      (natDigitsGo fuel n).length ≤ k := by
  intro fuel
  induction fuel with
  | zero => intro n k h; omega
  | succ fuel ih =>
    intro n k h hk h1
    by_cases h10 : n < 10
    · simpa [natDigitsGo, h10] using h1
    · have hk2 : 2 ≤ k := by
        by_contra hc
        have hk1 : k = 1 := by omega
        subst hk1
        simp at hk
        omega
      have hdiv : n / 10 < fuel := by
        have := Nat.div_lt_self (show 0 < n by omega) (show 1 < 10 by omega)
        omega
      have hdivpow : n / 10 < 10 ^ (k - 1) := by
        rw [Nat.div_lt_iff_lt_mul (by omega : 0 < 10)]
        calc n < 10 ^ k := hk
          _ = 10 ^ (k - 1) * 10 := by
              rw [← pow_succ]
              congr 1
              omega
      have := ih (n / 10) (k - 1) hdiv hdivpow (by omega)
      simp only [natDigitsGo, if_neg h10, List.length_append, List.length_singleton]
      omega

/-- Leading zeros do not change the parsed value of a digit string. -/
theorem parseNatGo_replicate_zero :
    ∀ k (l : List Char), parseNatGo (List.replicate k '0' ++ l) 0 = parseNatGo l 0 := by
  intro k
  induction k with
  | zero => intro l; rfl
  | succ k ih =>
    intro l
    simp only [List.replicate_succ, List.cons_append]
    show parseNatGo (List.replicate k '0' ++ l) (0 * 10 + 0) = parseNatGo l 0
    simpa using ih l

/-- `parseNat` on a non-empty list is the digit fold from 0. -/
theorem parseNat_eq_go (l : List Char) (h : l ≠ []) : parseNat l = parseNatGo l 0 := by
  cases l with
  | nil => exact absurd rfl h
  | cons c cs => rfl

/-- Parsing the printed digits of `n` gives back exactly `n`. -/
theorem parseNat_natDigits (n : Nat) : parseNat (natDigits n) = some n := by
  unfold natDigits
  rw [parseNat_eq_go _ (natDigitsGo_ne_nil _ _ (by omega)),
    parseNatGo_natDigitsGo (n + 1) n 0 (by omega)]
  simp

/-- The zero-padded 8-character fractional block parses back to `n` and has
length exactly 8, for `n < 10^8`. -/
theorem parseNat_padded (n : Nat) (hn : n < 100000000) :
    parseNat (List.replicate (8 - (natDigits n).length) '0' ++ natDigits n) = some n ∧
    (List.replicate (8 - (natDigits n).length) '0' ++ natDigits n).length = 8 := by
  have hpow : n < 10 ^ 8 := by norm_num; exact hn
  have hlen : (natDigits n).length ≤ 8 :=
    natDigitsGo_length_le (n + 1) n 8 (by omega) hpow (by omega)
  have hne : List.replicate (8 - (natDigits n).length) '0' ++ natDigits n ≠ [] := by
    intro hc
    have hl := congrArg List.length hc
    have hd := natDigitsGo_ne_nil (n + 1) n (by omega)
    simp at hl
    exact hd hl.2
  constructor
  · rw [parseNat_eq_go _ hne, parseNatGo_replicate_zero]
    have hgo : parseNatGo (natDigits n) 0 = parseNat (natDigits n) :=
      (parseNat_eq_go _ (natDigitsGo_ne_nil (n + 1) n (by omega))).symm
    rw [hgo, parseNat_natDigits]
  · simp only [List.length_append, List.length_replicate]
    omega

/-- Converting any satoshi amount to its decimal BTC string and parsing it
back is the identity. -/
theorem btc_round_trip_all (a : Nat) :
    btc_string_to_sats (sats_to_btc_string a) = some a := by
  show btc_chars_to_sats (sats_to_btc_chars a) = some a
  have hmod : a % 100000000 < 100000000 := Nat.mod_lt _ (by omega)
  obtain ⟨hfrac, hflen⟩ := parseNat_padded (a % 100000000) hmod
  have hmem : ∀ c ∈ natDigits (a / 100000000), (c != '.') = true :=
    fun c hc => natDigitsGo_mem_ne_dot _ _ c hc
  obtain ⟨htake, hdrop⟩ := takeWhile_middle (fun c => c != '.')
    (natDigits (a / 100000000))
    (List.replicate (8 - (natDigits (a % 100000000)).length) '0' ++
      natDigits (a % 100000000)) '.' hmem rfl
  unfold btc_chars_to_sats sats_to_btc_chars
  simp only [htake, hdrop, parseNat_natDigits, hfrac, hflen]
  norm_num
  omega

/-- C7: for every satoshi amount `a` in `[0, 2.1e15]`, rendering `a` as a
decimal BTC string (8 fractional digits) and parsing that string back gives
exactly `a`; both directions use only exact integer arithmetic, never binary
floating point. -/
theorem btc_string_round_trip (a : Nat) (h : a ≤ 2100000000000000) :
    btc_string_to_sats (sats_to_btc_string a) = some a :=
  btc_round_trip_all a

/-- C7 witness: the round trip at the maximal amount of the claim's range,
21 million BTC in satoshis. -/
theorem btc_string_round_trip_witness :
    btc_string_to_sats (sats_to_btc_string 2100000000000000) =
      some 2100000000000000 :=
  btc_string_round_trip 2100000000000000 (by decide)
